import Mathlib

/-!
Shallow embedding of the `mock_vs_di` repository (Python): a Pokemon API
client with a network-backed variant and a fixture (mock) variant, a
delegating `PokemonService`, and the composition root
`pokemon_service_factory` in `di_example/app/main.py`, plus the
module-level variants in `mock.py` / `mock_example/app/main.py`.

Network I/O is modelled by an explicit oracle parameter: a function from
(url, timeout) to either a failure or a JSON-like payload.  Reading the
process environment is modelled by a lookup function from variable names
to optional string values.
-/

namespace MockVsDI

/-- JSON-like values, the payloads moved around by the clients and the
service (`Dict[str, Any]` in the Python source). -/
inductive JVal where
  | null : JVal
  | num (n : Int) : JVal
  | str (s : String) : JVal
  | arr (xs : List JVal) : JVal
  | obj (fields : List (String × JVal)) : JVal

/-- Configuration values flowing through the container: environment
variables are strings, while the literal timeout default `5` is an
integer (`dependency_injector` passes either through untouched). -/
inductive ConfigVal where
  | str (s : String) : ConfigVal
  | int (n : Int) : ConfigVal
deriving DecidableEq, Repr

/-- The failure taxonomy of a client call (network error, timeout,
malformed response body), never caught by this repository. -/
inductive NetErr where
  | connectionError : NetErr
  | timeoutExpired : NetErr
  | malformedBody : NetErr
deriving DecidableEq, Repr

/-- The process environment: `os.environ.get`. -/
def Env : Type := String → Option String

/-- The network oracle: what `requests.get(url=..., timeout=...).json()`
returns for a given url and timeout (either a payload or a raised
failure). -/
def Net : Type := ConfigVal → ConfigVal → Except NetErr JVal

/-- The hard-coded literal payload returned by
`PokemonAPIClientMock.get_all_pokemons` (di_example/app/main.py,
lines 65-87): 10 name/url records. -/
def pokemonAPIClientMock_payload : JVal :=
  .obj [
    ("count", .num 1292),
    ("next", .str "https://pokeapi.co/api/v2/pokemon?offset=20&limit=20"),
    ("previous", .null),
    ("results", .arr [
      .obj [("name", .str "bulbasaur"), ("url", .str "https://pokeapi.co/api/v2/pokemon/1/")],
      .obj [("name", .str "ivysaur"), ("url", .str "https://pokeapi.co/api/v2/pokemon/2/")],
      .obj [("name", .str "venusaur"), ("url", .str "https://pokeapi.co/api/v2/pokemon/3/")],
      .obj [("name", .str "charmander"), ("url", .str "https://pokeapi.co/api/v2/pokemon/4/")],
      .obj [("name", .str "charmeleon"), ("url", .str "https://pokeapi.co/api/v2/pokemon/5/")],
      .obj [("name", .str "charizard"), ("url", .str "https://pokeapi.co/api/v2/pokemon/6/")],
      .obj [("name", .str "squirtle"), ("url", .str "https://pokeapi.co/api/v2/pokemon/7/")],
      .obj [("name", .str "wartortle"), ("url", .str "https://pokeapi.co/api/v2/pokemon/8/")],
      .obj [("name", .str "blastoise"), ("url", .str "https://pokeapi.co/api/v2/pokemon/9/")],
      .obj [("name", .str "caterpie"), ("url", .str "https://pokeapi.co/api/v2/pokemon/10/")]
    ])]

/-- The static payload installed by `mock.get_all_pokemons`'s patch in
`mock.py` (`TestPokemonService.test_get_all_pokemons`, lines 36-38):
`{'results': [i for i in range(20)]}`. -/
def mock_py_patch_payload : JVal :=
  .obj [("results", .arr ((List.range 20).map fun i => .num (Int.ofNat i)))]

/-- A client bound into the service: either the network-backed
`PokemonAPIClient` (holding its constructor arguments `api_url` and
`timeout`) or the fixture `PokemonAPIClientMock`.  Both implement
`IPokemonAPIClient.get_all_pokemons`. -/
inductive IPokemonAPIClient where
  | pokemonAPIClient (api_url : ConfigVal) (timeout : ConfigVal) : IPokemonAPIClient
  | pokemonAPIClientMock : IPokemonAPIClient
deriving DecidableEq, Repr

/-- `get_all_pokemons` on either client variant.  The network-backed
variant issues one GET: `requests.get(url=self.api_url,
timeout=self.timeout).json()`.  The mock returns the literal fixture
without consulting the network oracle. -/
def IPokemonAPIClient.get_all_pokemons : IPokemonAPIClient → Net → Except NetErr JVal
  | .pokemonAPIClient api_url t, net => net api_url t
  | .pokemonAPIClientMock, _ => .ok pokemonAPIClientMock_payload

/-- `PokemonService` (di_example/app/main.py, lines 90-120): holds one
injected client reference. -/
structure PokemonService where
  pokemon_api_client : IPokemonAPIClient
deriving DecidableEq, Repr

/-- `PokemonService.get_all_pokemons`: pure delegation to the held
client. -/
def PokemonService.get_all_pokemons (s : PokemonService) (net : Net) :
    Except NetErr JVal :=
  s.pokemon_api_client.get_all_pokemons net

/-- `Configuration.from_env(name, default)` of `dependency_injector`:
the environment variable's value when it is set, the supplied default
otherwise. -/
def from_env (env : Env) (name : String) (dflt : ConfigVal) : ConfigVal :=
  match env name with
  | some v => .str v
  | none => dflt

/-- The Python expression `app_env or 'develop'` (truthiness: both
`None` and the empty string fall back to the literal default). -/
def app_env_or_develop : Option String → String
  | some s => if s = "" then "develop" else s
  | none => "develop"

/-- The environment selector resolved by the factory:
`config.env.from_env('APP_ENV', default=app_env or 'develop')`. -/
def resolved_env (env : Env) (app_env : Option String) : ConfigVal :=
  from_env env "APP_ENV" (.str (app_env_or_develop app_env))

/-- The endpoint resolved by the factory:
`config.api_url.from_env('POKEMON_API_URL',
default='https://pokeapi.co/api/v2/pokemon')`. -/
def resolved_api_url (env : Env) : ConfigVal :=
  from_env env "POKEMON_API_URL" (.str "https://pokeapi.co/api/v2/pokemon")

/-- The timeout resolved by the factory:
`config.timeout.from_env('REQUEST_TIMEOUT', default=5)`. -/
def resolved_timeout (env : Env) : ConfigVal :=
  from_env env "REQUEST_TIMEOUT" (.int 5)

/-- The DI `Container` (di_example/app/main.py, lines 123-145): three
configuration providers, a Singleton `pokemon_api_client` provider
(possibly overridden), and a Factory `pokemon_service` provider. -/
structure Container where
  config_env : ConfigVal
  config_api_url : ConfigVal
  config_timeout : ConfigVal
  pokemon_api_client_override : Option IPokemonAPIClient
deriving DecidableEq, Repr

/-- The container's `pokemon_api_client` provider: the installed
override when one is present, else the Singleton
`PokemonAPIClient(api_url=config.api_url, timeout=config.timeout)`. -/
def Container.pokemon_api_client (c : Container) : IPokemonAPIClient :=
  match c.pokemon_api_client_override with
  | some cl => cl
  | none => .pokemonAPIClient c.config_api_url c.config_timeout

/-- The container's `pokemon_service` Factory provider: a fresh
`PokemonService` wrapping the `pokemon_api_client` provider's client. -/
def Container.pokemon_service (c : Container) : PokemonService :=
  ⟨c.pokemon_api_client⟩

/-- `pokemon_service_factory` (di_example/app/main.py, lines 148-184):
builds a fresh `Container`, resolves the three configuration values,
installs the mock override when the resolved selector equals "test",
and returns the container's service. -/
def pokemon_service_factory (env : Env) (app_env : Option String) :
    PokemonService :=
  let container : Container :=
    { config_env := resolved_env env app_env
      config_api_url := resolved_api_url env
      config_timeout := resolved_timeout env
      pokemon_api_client_override := none }
  let container :=
    if container.config_env = .str "test" then
      { container with pokemon_api_client_override := some .pokemonAPIClientMock }
    else container
  container.pokemon_service

/-- Running `pokemon_service_factory` twice in sequence (each call
constructs its own fresh `Container`, as in the source). -/
def two_invocations (env : Env) (o1 o2 : Option String) :
    PokemonService × PokemonService :=
  (pokemon_service_factory env o1, pokemon_service_factory env o2)

/-- The network oracle of the `mock_example`/`mock.py` variants, whose
`requests.get` call passes no timeout. -/
def Net0 : Type := ConfigVal → Except NetErr JVal

/-- Module-level `get_all_pokemons` of `mock_example/app/main.py`
(and `mock.py`): one GET against the fixed public URL. -/
def mock_example_get_all_pokemons (net0 : Net0) : Except NetErr JVal :=
  net0 (.str "https://pokeapi.co/api/v2/pokemon")

/-- `mock_example`'s `PokemonService.get_all_pokemons`: delegates to the
module-level function. -/
def mock_example_service_get_all_pokemons (net0 : Net0) : Except NetErr JVal :=
  mock_example_get_all_pokemons net0

/-- Field lookup under key "results" (the shape checks of the tests). -/
def get_results : JVal → Option JVal
  | .obj fields => fields.lookup "results"
  | _ => none

/-- `k in v` for an object value: whether the record has field `k`. -/
def has_field (v : JVal) (k : String) : Bool :=
  match v with
  | .obj fields => fields.any (fun p => p.1 = k)
  | _ => false

/-- `PokemonAPIClient.__init__` viewed as state construction
(di_example/app/main.py, lines 37-45): stores `api_url` and `timeout`. -/
structure PokemonAPIClientState where
  api_url : ConfigVal
  timeout : ConfigVal
deriving DecidableEq, Repr

/-- `PokemonAPIClient(api_url, timeout)`. -/
def pokemonAPIClient_construct (api_url t : ConfigVal) : PokemonAPIClientState :=
  { api_url := api_url, timeout := t }

/-- `PokemonAPIClient.get_all_pokemons` as an explicit state-passing
step: the method body only reads `self.api_url` and `self.timeout`,
assigns nothing, and returns the GET's parsed body; the post-state is
the pre-state. -/
def pokemonAPIClient_get_all_pokemons (self : PokemonAPIClientState)
    (net : Net) : Except NetErr JVal × PokemonAPIClientState :=
  (net self.api_url self.timeout, self)

/-- A process environment with `APP_ENV` set to "production" and
everything else unset. -/
def envProdOnly : Env :=
  fun name => if name = "APP_ENV" then some "production" else none

/-- The empty process environment: every variable unset. -/
def envEmpty : Env := fun _ => none

/-- C1 (code-bug evidence): the claim and the factory's own docstring say
an explicit `app_env` override beats the `APP_ENV` environment variable,
but `from_env('APP_ENV', default=app_env or 'develop')` reads the
environment variable first and uses the override only as the default:
with `APP_ENV=production` and override "test", the selector resolves to
"production", not "test", and the network-backed client gets bound. -/
theorem C1_env_var_beats_override :
    resolved_env envProdOnly (some "test") = .str "production"
    ∧ resolved_env envProdOnly (some "test") ≠ .str "test"
    ∧ (pokemon_service_factory envProdOnly (some "test")).pokemon_api_client
        = .pokemonAPIClient (.str "https://pokeapi.co/api/v2/pokemon") (.int 5) := by
  refine ⟨rfl, by decide, by decide⟩

/-- C2 (counterexample to the claim as stated): an invocation with
override `app_env="test"` does not bind the fixture client when the
`APP_ENV` environment variable is set to "production". -/
theorem C2_counterexample :
    ¬ (pokemon_service_factory envProdOnly (some "test")).pokemon_api_client
        = .pokemonAPIClientMock := by
  decide

/-- C2 (amended): when the `APP_ENV` environment variable is unset or
itself equal to "test", an invocation with override `app_env="test"`
binds the fixture client `PokemonAPIClientMock`, and the returned
service's `get_all_pokemons` yields exactly the hard-coded fixture
payload for every network oracle (hence without network I/O). -/
theorem C2_test_override_binds_mock (env : Env)
    (h : env "APP_ENV" = none ∨ env "APP_ENV" = some "test") :
    (pokemon_service_factory env (some "test")).pokemon_api_client
        = .pokemonAPIClientMock
    ∧ ∀ net : Net,
        (pokemon_service_factory env (some "test")).get_all_pokemons net
          = .ok pokemonAPIClientMock_payload := by
  have hsel : resolved_env env (some "test") = .str "test" := by
    rcases h with h | h <;>
      simp [resolved_env, from_env, h, app_env_or_develop]
  have hcl : (pokemon_service_factory env (some "test")).pokemon_api_client
      = .pokemonAPIClientMock := by
    simp [pokemon_service_factory, Container.pokemon_service,
      Container.pokemon_api_client, hsel]
  refine ⟨hcl, fun net => ?_⟩
  simp [PokemonService.get_all_pokemons, hcl, IPokemonAPIClient.get_all_pokemons]

/-- C2 witness: concrete run with every environment variable unset. -/
theorem C2_test_override_binds_mock_witness :
    (pokemon_service_factory envEmpty (some "test")).pokemon_api_client
        = .pokemonAPIClientMock
    ∧ (pokemon_service_factory envEmpty (some "test")).get_all_pokemons
        (fun _ _ => .error .connectionError) = .ok pokemonAPIClientMock_payload :=
  ⟨(C2_test_override_binds_mock envEmpty (Or.inl rfl)).1,
   (C2_test_override_binds_mock envEmpty (Or.inl rfl)).2 _⟩

/-- C3: the `mock.py` patch fixture's "results" is the 20 integer
indices 0..19, and the `PokemonAPIClientMock` fixture's "results" is a
list of exactly 10 records each carrying "name" and "url" fields. -/
theorem C3_fixture_shapes :
    (∃ xs : List JVal, get_results mock_py_patch_payload = some (.arr xs)
        ∧ xs.length = 20
        ∧ xs = (List.range 20).map fun i => .num (Int.ofNat i))
    ∧ ∃ rs : List JVal, get_results pokemonAPIClientMock_payload = some (.arr rs)
        ∧ rs.length = 10
        ∧ ∀ r ∈ rs, has_field r "name" = true ∧ has_field r "url" = true := by
  constructor
  · exact ⟨_, rfl, rfl, rfl⟩
  · refine ⟨_, rfl, rfl, ?_⟩
    decide

/-- C4: whenever the resolved selector differs from "test" (no override
defaults it to "develop"), the factory binds the network-backed
`PokemonAPIClient` built from the resolved endpoint and timeout; with
`POKEMON_API_URL` and `REQUEST_TIMEOUT` unset those resolve to the
fixed public URL and to 5. -/
theorem C4_non_test_binds_real_client (env : Env) (app_env : Option String)
    (h : ¬ resolved_env env app_env = .str "test") :
    (pokemon_service_factory env app_env).pokemon_api_client
        = .pokemonAPIClient (resolved_api_url env) (resolved_timeout env)
    ∧ (env "POKEMON_API_URL" = none →
        resolved_api_url env = .str "https://pokeapi.co/api/v2/pokemon")
    ∧ (env "REQUEST_TIMEOUT" = none → resolved_timeout env = .int 5) := by
  refine ⟨?_, fun h2 => ?_, fun h3 => ?_⟩
  · simp [pokemon_service_factory, Container.pokemon_service,
      Container.pokemon_api_client, if_neg h]
  · simp [resolved_api_url, from_env, h2]
  · simp [resolved_timeout, from_env, h3]

/-- C4 witness: concrete run with every environment variable unset and
no override. -/
theorem C4_non_test_binds_real_client_witness :
    (pokemon_service_factory envEmpty none).pokemon_api_client
        = .pokemonAPIClient (resolved_api_url envEmpty) (resolved_timeout envEmpty)
    ∧ resolved_api_url envEmpty = .str "https://pokeapi.co/api/v2/pokemon"
    ∧ resolved_timeout envEmpty = .int 5 := by
  have h := C4_non_test_binds_real_client envEmpty none (by decide)
  exact ⟨h.1, h.2.1 rfl, h.2.2 rfl⟩

/-- C5: the service's `get_all_pokemons` is pure delegation — its result
is the bound client's result, for every client variant and every network
oracle (likewise in the `mock_example` variant). -/
theorem C5_service_is_pure_delegation (c : IPokemonAPIClient) (net : Net)
    (net0 : Net0) :
    (PokemonService.mk c).get_all_pokemons net = c.get_all_pokemons net
    ∧ mock_example_service_get_all_pokemons net0
        = mock_example_get_all_pokemons net0 :=
  ⟨rfl, rfl⟩

/-- C6: a failure raised by the bound client's `get_all_pokemons`
propagates unchanged through `PokemonService.get_all_pokemons`. -/
theorem C6_errors_propagate_unchanged (s : PokemonService) (net : Net)
    (e : NetErr) (h : s.pokemon_api_client.get_all_pokemons net = .error e) :
    s.get_all_pokemons net = .error e := h

/-- C6 witness: a factory-shaped service over a timing-out network. -/
theorem C6_errors_propagate_unchanged_witness :
    (PokemonService.mk
        (.pokemonAPIClient (.str "https://pokeapi.co/api/v2/pokemon") (.int 5))
      ).get_all_pokemons (fun _ _ => .error .timeoutExpired)
      = .error .timeoutExpired :=
  C6_errors_propagate_unchanged _ _ _ rfl

/-- C7: each invocation of the factory re-runs the selection on a fresh
container — the result of either invocation in a two-invocation run is
unchanged when the *other* invocation's override changes, and with
`APP_ENV` unset the overrides "test" and "develop" in one run yield the
mock client and the network-backed client respectively. -/
theorem C7_selection_not_cached (env : Env) (o1 o1' o2 o2' : Option String)
    (h : env "APP_ENV" = none) :
    (two_invocations env o1 o2).2 = (two_invocations env o1' o2).2
    ∧ (two_invocations env o1 o2).1 = (two_invocations env o1 o2').1
    ∧ (two_invocations env (some "test") (some "develop")).1.pokemon_api_client
        = .pokemonAPIClientMock
    ∧ (two_invocations env (some "test") (some "develop")).2.pokemon_api_client
        = .pokemonAPIClient (resolved_api_url env) (resolved_timeout env) := by
  refine ⟨rfl, rfl, ?_, ?_⟩
  · simp [two_invocations, pokemon_service_factory, Container.pokemon_service,
      Container.pokemon_api_client, resolved_env, from_env, h, app_env_or_develop]
  · simp [two_invocations, pokemon_service_factory, Container.pokemon_service,
      Container.pokemon_api_client, resolved_env, from_env, h, app_env_or_develop]

/-- C7 witness: concrete two-invocation runs with every environment
variable unset. -/
theorem C7_selection_not_cached_witness :
    (two_invocations envEmpty none (some "test")).2
        = (two_invocations envEmpty (some "production") (some "test")).2
    ∧ (two_invocations envEmpty none (some "test")).1
        = (two_invocations envEmpty none (some "develop")).1
    ∧ (two_invocations envEmpty (some "test") (some "develop")).1.pokemon_api_client
        = .pokemonAPIClientMock
    ∧ (two_invocations envEmpty (some "test") (some "develop")).2.pokemon_api_client
        = .pokemonAPIClient (resolved_api_url envEmpty) (resolved_timeout envEmpty) :=
  C7_selection_not_cached envEmpty none (some "production") (some "test")
    (some "develop") rfl

/-- C8: on a fixture-backed service, two calls to `get_all_pokemons`
return structurally equal payloads — even across different network
states — and each equals the fixture payload. -/
theorem C8_fixture_backed_idempotent (net1 net2 : Net) :
    (PokemonService.mk .pokemonAPIClientMock).get_all_pokemons net1
      = (PokemonService.mk .pokemonAPIClientMock).get_all_pokemons net2
    ∧ (PokemonService.mk .pokemonAPIClientMock).get_all_pokemons net1
      = .ok pokemonAPIClientMock_payload :=
  ⟨rfl, rfl⟩

/-- C9: `PokemonAPIClient.__init__` stores `api_url` and `timeout`, and
`get_all_pokemons` leaves the client state unchanged (its body only
reads the two fields). -/
theorem C9_client_config_immutable (u t : ConfigVal)
    (s : PokemonAPIClientState) (net : Net) :
    (pokemonAPIClient_construct u t).api_url = u
    ∧ (pokemonAPIClient_construct u t).timeout = t
    ∧ (pokemonAPIClient_get_all_pokemons s net).2 = s :=
  ⟨rfl, rfl, rfl⟩

/-- C10: an empty-string override is swallowed by Python truthiness
(`app_env or 'develop'`): the factory behaves exactly as with no
override, and with `APP_ENV` unset the selector resolves to "develop"
and the network-backed client is bound. -/
theorem C10_empty_override_like_none (env : Env) (h : env "APP_ENV" = none) :
    pokemon_service_factory env (some "") = pokemon_service_factory env none
    ∧ resolved_env env (some "") = .str "develop"
    ∧ (pokemon_service_factory env (some "")).pokemon_api_client
        = .pokemonAPIClient (resolved_api_url env) (resolved_timeout env) := by
  refine ⟨rfl, ?_, ?_⟩
  · simp [resolved_env, from_env, h, app_env_or_develop]
  · simp [pokemon_service_factory, Container.pokemon_service,
      Container.pokemon_api_client, resolved_env, from_env, h, app_env_or_develop]

/-- C10 witness: concrete run with every environment variable unset. -/
theorem C10_empty_override_like_none_witness :
    pokemon_service_factory envEmpty (some "")
        = pokemon_service_factory envEmpty none
    ∧ resolved_env envEmpty (some "") = .str "develop"
    ∧ (pokemon_service_factory envEmpty (some "")).pokemon_api_client
        = .pokemonAPIClient (resolved_api_url envEmpty) (resolved_timeout envEmpty) :=
  C10_empty_override_like_none envEmpty rfl

end MockVsDI
